import Mathlib

/-!
# bunwrapper: a generic CRUD helper over a database client

Shallow embedding of `bunwrapper.go`.  The database client (`bun.DB`, `bun.Tx`,
`sql.Result`) is external to the repository, so it appears here as an abstract
state machine `Client`: every client call is a function from the state of the
outside world to its results and the next state.  The wrapper operations are
written in explicit state-passing style over a `World`, which pairs the state
of the outside world with the list of client calls made so far.

Conventions:
* a Go `error` is `Option (GoError E)`, `none` being `nil`;
* `errors.New msg` allocates a fresh error value, which is different from
  every error value the client hands out: `GoError.new msg`;
* a Go slice is `Slice R`, with `Slice.nil` the nil slice;
* a Go pointer received from the caller is `Ptr α`, nil or an address in the
  outside world;
* `int64` values are `Int`; the code does no arithmetic on them;
* `len` of a Go string is its number of bytes, `String.utf8ByteSize`.
-/

namespace Bunwrapper

/-- Go error values seen by a caller of the wrapper. -/
inductive GoError (E : Type) where
  /-- an error value returned by the database client, passed on as is -/
  | client (e : E)
  /-- the value of `errors.New(msg)` -/
  | new (msg : String)
  deriving DecidableEq, Repr

/-- Go slices: the nil slice, or a slice with the given elements. -/
inductive Slice (R : Type) where
  | nil
  | mk (elems : List R)
  deriving DecidableEq, Repr

/-- The elements of a slice, in order. -/
def Slice.toList {R : Type} : Slice R → List R
  | Slice.nil => []
  | Slice.mk l => l

/-- Go `len(s)`. -/
def Slice.len {R : Type} (s : Slice R) : Nat := s.toList.length

/-- Go `s == nil`. -/
def Slice.isNil {R : Type} : Slice R → Bool
  | Slice.nil => true
  | Slice.mk _ => false

/-- Go pointers handed in by the caller: nil, or an address. -/
inductive Ptr (α : Type) where
  | nil
  | addr (a : Nat)
  deriving DecidableEq, Repr

/-- Go `p != nil`. -/
def Ptr.notNil {α : Type} : Ptr α → Bool
  | Ptr.nil => false
  | Ptr.addr _ => true

/-- The calls the wrapper makes on the database client. -/
inductive Call (R ID A T Res : Type) where
  /-- the call `DB.NewRaw(query, args...).Scan(ctx, &dest)` -/
  | rawScan (query : String) (args : List A)
  /-- the call `DB.Begin()` -/
  | begin
  /-- the call `tx.NewInsert().Model(data).Returning("id").Scan(ctx, id)` -/
  | insertScan (tx : T) (data : Ptr R) (id : Ptr ID)
  /-- the call `tx.NewUpdate().Table(table).Model(&value).Where(wheres, args...).Exec(ctx)` -/
  | updateExec (tx : T) (table : String) (value : List (String × A)) (wheres : String)
      (args : List A)
  /-- the call `tx.NewDelete().Table(table).Where(wheres, args...).Exec(ctx)` -/
  | deleteExec (tx : T) (table : String) (wheres : String) (args : List A)
  /-- the call `rs.RowsAffected()` -/
  | rowsAffected (rs : Res)
  /-- the call `tx.Commit()` -/
  | commit (tx : T)
  /-- the call `tx.Rollback()` -/
  | rollback (tx : T)
  deriving DecidableEq, Repr

/-- The database client as a state machine over the outside world `σ`.
`E` is the type of the client's error values, `A` of the `any` arguments,
`T` of transactions (`bun.Tx`) and `Res` of statement results (`sql.Result`).
A scan receives the current value of its destination and returns the value
left in it. -/
structure Client (σ R ID E A T Res : Type) where
  rawScanInt64 : String → List A → Int → σ → (Int × Option E) × σ
  rawScanRow : String → List A → R → σ → (R × Option E) × σ
  rawScanRows : String → List A → Slice R → σ → (Slice R × Option E) × σ
  begin : σ → (T × Option E) × σ
  insertScan : T → Ptr R → Ptr ID → σ → Option E × σ
  updateExec : T → String → List (String × A) → String → List A → σ → (Res × Option E) × σ
  deleteExec : T → String → String → List A → σ → (Res × Option E) × σ
  rowsAffected : Res → σ → (Int × Option E) × σ
  commit : T → σ → Option E × σ
  rollback : T → σ → Option E × σ

/-- The outside world together with the client calls made so far. -/
structure World (σ R ID A T Res : Type) where
  st : σ
  calls : List (Call R ID A T Res)

/-- A world in which no client call has been made yet. -/
def World.start {σ R ID A T Res : Type} (s : σ) : World σ R ID A T Res := ⟨s, []⟩

/-- Make one client call: record it and advance the outside world. -/
def World.call {σ R ID A T Res α : Type} (w : World σ R ID A T Res)
    (ev : Call R ID A T Res) (f : σ → α × σ) : α × World σ R ID A T Res :=
  ((f w.st).1, ⟨(f w.st).2, w.calls ++ [ev]⟩)

section Wrapper

variable {σ R ID E A T Res : Type}

/-- Embedding of `bunWrapper.Count`. -/
def Count (b : Client σ R ID E A T Res) (query : String) (args : List A)
    (w : World σ R ID A T Res) : Int × World σ R ID A T Res :=
  let row : Int := 0
  match w.call (Call.rawScan query args) (b.rawScanInt64 query args row) with
  | ((row, none), w) => (row, w)
  | ((_, some _), w) => (0, w)

/-- Embedding of `bunWrapper.SelsectBy`. -/
def SelsectBy [Inhabited R] (b : Client σ R ID E A T Res) (query : String) (args : List A)
    (w : World σ R ID A T Res) : (R × Option (GoError E)) × World σ R ID A T Res :=
  let row : R := default
  match w.call (Call.rawScan query args) (b.rawScanRow query args row) with
  | ((row, some err), w) => ((row, some (GoError.client err)), w)
  | ((row, none), w) => ((row, some (GoError.new "not found")), w)

/-- Embedding of `bunWrapper.SelectOne`. -/
def SelectOne [Inhabited R] (b : Client σ R ID E A T Res) (query : String) (args : List A)
    (w : World σ R ID A T Res) : (R × Option (GoError E)) × World σ R ID A T Res :=
  let row : R := default
  let rows : Slice R := Slice.nil
  match w.call (Call.rawScan query args) (b.rawScanRows query args rows) with
  | ((_, some err), w) => ((row, some (GoError.client err)), w)
  | ((rows, none), w) =>
    if h : rows.len > 0 then
      ((rows.toList.get ⟨0, h⟩, none), w)
    else
      ((row, some (GoError.new "not found")), w)

/-- Embedding of `bunWrapper.SelectList`. -/
def SelectList (b : Client σ R ID E A T Res) (query : String) (args : List A)
    (w : World σ R ID A T Res) : (Slice R × Option (GoError E)) × World σ R ID A T Res :=
  let rows : Slice R := Slice.nil
  match w.call (Call.rawScan query args) (b.rawScanRows query args rows) with
  | ((_, some err), w) => ((Slice.mk [], some (GoError.client err)), w)
  | ((rows, none), w) =>
    if rows.len > 0 then
      ((rows, none), w)
    else
      ((Slice.mk [], none), w)

/-- Embedding of `bunWrapper.InsertTx`.  The variadic `commit ...bool` is the
list `commit`. -/
def InsertTx (b : Client σ R ID E A T Res) (data : Ptr R) (id : Ptr ID) (commit : List Bool)
    (w : World σ R ID A T Res) : (T × Option (GoError E)) × World σ R ID A T Res :=
  match w.call Call.begin b.begin with
  | ((tx, some err), w) => ((tx, some (GoError.client err)), w)
  | ((tx, none), w) =>
    match w.call (Call.insertScan tx data id) (b.insertScan tx data id) with
    | (none, w) =>
      if id.notNil then
        if commit.length > 0 then
          match w.call (Call.commit tx) (b.commit tx) with
          | (none, w) => ((tx, none), w)
          | (some _, w) => ((tx, none), w)
        else
          ((tx, none), w)
      else
        match w.call (Call.rollback tx) (b.rollback tx) with
        | (r, w) => ((tx, r.map GoError.client), w)
    | (some err, w) => ((tx, some (GoError.client err)), w)

/-- Embedding of `bunWrapper.UpdateTx`. -/
def UpdateTx (b : Client σ R ID E A T Res) (table : String) (value : List (String × A))
    (wheres : String) (args : List A) (commit : List Bool)
    (w : World σ R ID A T Res) : (T × Option (GoError E)) × World σ R ID A T Res :=
  match w.call Call.begin b.begin with
  | ((tx, some err), w) => ((tx, some (GoError.client err)), w)
  | ((tx, none), w) =>
    if wheres.utf8ByteSize = 0 then
      ((tx, some (GoError.new "there is no data to update")), w)
    else
      match w.call (Call.updateExec tx table value wheres args)
          (b.updateExec tx table value wheres args) with
      | ((_, some err), w) => ((tx, some (GoError.client err)), w)
      | ((rs, none), w) =>
        match w.call (Call.rowsAffected rs) (b.rowsAffected rs) with
        | ((_, some err), w) => ((tx, some (GoError.client err)), w)
        | ((_, none), w) =>
          if commit.length > 0 then
            match w.call (Call.commit tx) (b.commit tx) with
            | (none, w) => ((tx, none), w)
            | (some _, w) => ((tx, none), w)
          else
            ((tx, none), w)

/-- The tail of `bunWrapper.DeleteTx`, from `if len(commit) > 0` to the end. -/
def DeleteTx.finish (b : Client σ R ID E A T Res) (tx : T) (commit : List Bool)
    (w : World σ R ID A T Res) : (T × Option (GoError E)) × World σ R ID A T Res :=
  if commit.length > 0 then
    match w.call (Call.commit tx) (b.commit tx) with
    | (none, w) => ((tx, none), w)
    | (some _, w) => ((tx, none), w)
  else
    ((tx, none), w)

/-- Embedding of `bunWrapper.DeleteTx`. -/
def DeleteTx (b : Client σ R ID E A T Res) (table : String) (wheres : String)
    (args : List A) (commit : List Bool)
    (w : World σ R ID A T Res) : (T × Option (GoError E)) × World σ R ID A T Res :=
  match w.call Call.begin b.begin with
  | ((tx, some err), w) => ((tx, some (GoError.client err)), w)
  | ((tx, none), w) =>
    match w.call (Call.deleteExec tx table wheres args) (b.deleteExec tx table wheres args) with
    | ((rs, none), w) =>
      match w.call (Call.rowsAffected rs) (b.rowsAffected rs) with
      | ((_, some e), w) => ((tx, some (GoError.client e)), w)
      | ((row, none), w) =>
        if row ≤ 0 then
          match w.call (Call.rollback tx) (b.rollback tx) with
          | (r, w) => ((tx, r.map GoError.client), w)
        else
          DeleteTx.finish b tx commit w
    | ((_, some _), w) => DeleteTx.finish b tx commit w

end Wrapper

/-! ## A scripted client for concrete runs -/

/-- The answers a scripted client gives: the error of every raw scan and the
values it leaves in the destination, then the errors of `Begin`, of the
statement, of `RowsAffected`, of `Commit` and of `Rollback`, and the number of
rows a statement affects. -/
structure Script where
  scanErr : Option String
  count : Int
  row : String
  rows : Slice String
  beginErr : Option String
  stmtErr : Option String
  affectedErr : Option String
  affected : Int
  commitErr : Option String
  rollbackErr : Option String

/-- A client that answers from a script.  Its state counts the calls made;
a transaction is named by the state in which it was opened and a statement
result by the state in which the statement ran. -/
def scripted (sc : Script) : Client Nat String Nat String Int Nat Nat where
  rawScanInt64 := fun _ _ _ s => ((sc.count, sc.scanErr), s + 1)
  rawScanRow := fun _ _ _ s => ((sc.row, sc.scanErr), s + 1)
  rawScanRows := fun _ _ _ s => ((sc.rows, sc.scanErr), s + 1)
  begin := fun s => ((s, sc.beginErr), s + 1)
  insertScan := fun _ _ _ s => (sc.stmtErr, s + 1)
  updateExec := fun _ _ _ _ _ s => ((s, sc.stmtErr), s + 1)
  deleteExec := fun _ _ _ _ s => ((s, sc.stmtErr), s + 1)
  rowsAffected := fun _ s => ((sc.affected, sc.affectedErr), s + 1)
  commit := fun _ s => (sc.commitErr, s + 1)
  rollback := fun _ s => (sc.rollbackErr, s + 1)

/-- Every call succeeds; scans find the rows "ann" and "bob", statements
affect one row. -/
def Script.ok : Script :=
  ⟨none, 2, "ann", Slice.mk ["ann", "bob"], none, none, none, 1, none, none⟩

/-- Every call succeeds; scans find nothing, statements affect no row. -/
def Script.noRows : Script :=
  ⟨none, 0, "", Slice.nil, none, none, none, 0, none, none⟩

/-- Raw scans fail. -/
def Script.scanFails : Script :=
  ⟨some "connection refused", 0, "", Slice.nil, none, none, none, 0, none, none⟩

/-- The statement inside the transaction fails. -/
def Script.stmtFails : Script :=
  ⟨none, 0, "", Slice.nil, none, some "constraint violated", none, 0, none, none⟩

/-- The statement succeeds and `RowsAffected` fails. -/
def Script.affectedFails : Script :=
  ⟨none, 0, "", Slice.nil, none, none, some "not supported", 0, none, none⟩

/-- The statement succeeds, affecting one row, and `Commit` fails. -/
def Script.commitFails : Script :=
  ⟨none, 0, "", Slice.nil, none, none, none, 1, some "commit failed", none⟩

/-- An operation `run`, as a function of its variadic commit arguments, commits
the transaction `tx` exactly when it is given at least one commit argument,
whatever the booleans are, and with no commit argument it neither commits nor
rolls back. -/
def CommitsIffAsked {σ R ID E A T Res : Type} (tx : T)
    (run : List Bool → (T × Option (GoError E)) × World σ R ID A T Res) : Prop :=
  (∀ commit, Call.commit tx ∈ (run commit).2.calls ↔ commit ≠ []) ∧
  run [false] = run [true] ∧
  (∀ c1 c2, c1 ≠ [] → c2 ≠ [] → run c1 = run c2) ∧
  (∀ t, Call.commit t ∉ (run []).2.calls ∧ Call.rollback t ∉ (run []).2.calls)

/-! ## Queries -/

section QueryTheorems

variable {σ R ID E A T Res : Type}

/-- C7: Count returns the scanned value when the scan succeeds and 0 when it
fails, so a failed query and a successful query counting 0 return the same. -/
theorem Count_forwards (b : Client σ R ID E A T Res) (query : String) (args : List A) (s : σ) :
    (∀ n s1, b.rawScanInt64 query args 0 s = ((n, none), s1) →
      (Count b query args (World.start s)).1 = n) ∧
    (∀ v e s1, b.rawScanInt64 query args 0 s = ((v, some e), s1) →
      (Count b query args (World.start s)).1 = 0) ∧
    (∀ (b2 : Client σ R ID E A T Res) (s2 : σ) v e s1 s3,
      b.rawScanInt64 query args 0 s = ((v, some e), s1) →
      b2.rawScanInt64 query args 0 s2 = ((0, none), s3) →
      (Count b query args (World.start s)).1 = (Count b2 query args (World.start s2)).1) := by
  refine ⟨?_, ?_, ?_⟩
  · intro n s1 h
    simp [Count, World.call, World.start, h]
  · intro v e s1 h
    simp [Count, World.call, World.start, h]
  · intro b2 s2 v e s1 s3 h h2
    simp [Count, World.call, World.start, h, h2]

/-- Witness for C7: a client counting 2 gives 2, a failing client gives 0, and
so does a client counting 0. -/
theorem Count_forwards_witness :
    (Count (scripted Script.ok) "SELECT count(*) FROM users" [] (World.start 0)).1 = 2 ∧
    (Count (scripted Script.scanFails) "SELECT count(*) FROM users" [] (World.start 0)).1 = 0 ∧
    (Count (scripted Script.scanFails) "SELECT count(*) FROM users" [] (World.start 0)).1 =
      (Count (scripted Script.noRows) "SELECT count(*) FROM users" [] (World.start 7)).1 :=
  ⟨(Count_forwards (scripted Script.ok) "SELECT count(*) FROM users" [] 0).1 2 1 rfl,
   (Count_forwards (scripted Script.scanFails) "SELECT count(*) FROM users" [] 0).2.1
      0 "connection refused" 1 rfl,
   (Count_forwards (scripted Script.scanFails) "SELECT count(*) FROM users" [] 0).2.2
      (scripted Script.noRows) 7 0 "connection refused" 1 8 rfl rfl⟩

/-- C1: SelectOne returns the zero row with the scan error when the scan
fails, the first scanned row with a nil error when the scan succeeds with a
non-empty list, and the zero row with the error "not found" when the scan
succeeds with an empty list; it reports "not found" exactly when the scan
succeeded with zero rows. -/
theorem SelectOne_contract [Inhabited R] (b : Client σ R ID E A T Res) (query : String)
    (args : List A) (s : σ) :
    (∀ rows e s1, b.rawScanRows query args Slice.nil s = ((rows, some e), s1) →
      (SelectOne b query args (World.start s)).1 = (default, some (GoError.client e))) ∧
    (∀ rows s1 r rest, b.rawScanRows query args Slice.nil s = ((rows, none), s1) →
      rows.toList = r :: rest →
      (SelectOne b query args (World.start s)).1 = (r, none)) ∧
    (∀ rows s1, b.rawScanRows query args Slice.nil s = ((rows, none), s1) →
      rows.len = 0 →
      (SelectOne b query args (World.start s)).1 = (default, some (GoError.new "not found"))) ∧
    ((SelectOne b query args (World.start s)).1.2 = some (GoError.new "not found") ↔
      ∃ rows s1, b.rawScanRows query args Slice.nil s = ((rows, none), s1) ∧ rows.len = 0) := by
  refine ⟨?_, ?_, ?_, ?_⟩
  · intro rows e s1 h
    simp [SelectOne, World.call, World.start, h]
  · intro rows s1 r rest h hr
    simp [SelectOne, World.call, World.start, h, Slice.len, hr]
  · intro rows s1 h h0
    simp [SelectOne, World.call, World.start, h, h0]
  · rcases hscan : b.rawScanRows query args Slice.nil s with ⟨⟨rows, _ | e⟩, s1⟩
    · by_cases h0 : rows.len > 0
      · simp [SelectOne, World.call, World.start, hscan, h0]
        omega
      · simp [SelectOne, World.call, World.start, hscan, h0]
        omega
    · simp [SelectOne, World.call, World.start, hscan]

/-- Witness for C1, on a failing scan, a scan finding two rows and a scan
finding none. -/
theorem SelectOne_contract_witness :
    (SelectOne (scripted Script.scanFails) "SELECT * FROM users" [] (World.start 0)).1 =
      (default, some (GoError.client "connection refused")) ∧
    (SelectOne (scripted Script.ok) "SELECT * FROM users" [] (World.start 0)).1 =
      ("ann", none) ∧
    (SelectOne (scripted Script.noRows) "SELECT * FROM users" [] (World.start 0)).1 =
      (default, some (GoError.new "not found")) :=
  ⟨(SelectOne_contract (scripted Script.scanFails) "SELECT * FROM users" [] 0).1
      Slice.nil "connection refused" 1 rfl,
   (SelectOne_contract (scripted Script.ok) "SELECT * FROM users" [] 0).2.1
      (Slice.mk ["ann", "bob"]) 1 "ann" ["bob"] rfl rfl,
   (SelectOne_contract (scripted Script.noRows) "SELECT * FROM users" [] 0).2.2.1
      Slice.nil 1 rfl rfl⟩

/-- C6: SelectList returns the scan error of the client, nil exactly when the
scan succeeded; the scanned slice itself when the scan succeeds with at least
one row; the empty slice when the scan fails or finds no row; never the nil
slice. -/
theorem SelectList_forwards (b : Client σ R ID E A T Res) (query : String)
    (args : List A) (s : σ) :
    (SelectList b query args (World.start s)).1.2 =
      (b.rawScanRows query args Slice.nil s).1.2.map GoError.client ∧
    ((SelectList b query args (World.start s)).1.2 = none ↔
      (b.rawScanRows query args Slice.nil s).1.2 = none) ∧
    (∀ rows s1, b.rawScanRows query args Slice.nil s = ((rows, none), s1) → rows.len > 0 →
      (SelectList b query args (World.start s)).1.1 = rows ∧
      (SelectList b query args (World.start s)).1.1.toList = rows.toList ∧
      (SelectList b query args (World.start s)).1.1.len = rows.len) ∧
    (∀ rows e s1, b.rawScanRows query args Slice.nil s = ((rows, some e), s1) →
      (SelectList b query args (World.start s)).1.1 = Slice.mk []) ∧
    (∀ rows s1, b.rawScanRows query args Slice.nil s = ((rows, none), s1) → rows.len = 0 →
      (SelectList b query args (World.start s)).1.1 = Slice.mk []) ∧
    (SelectList b query args (World.start s)).1.1.isNil = false := by
  rcases hscan : b.rawScanRows query args Slice.nil s with ⟨⟨rows, _ | e⟩, s1⟩
  · by_cases h0 : rows.len > 0
    · have hnil : rows.isNil = false := by
        cases rows with
        | nil => simp [Slice.len, Slice.toList] at h0
        | mk l => rfl
      simp [SelectList, World.call, World.start, hscan, h0, hnil]
      intro h1
      omega
    · simp [SelectList, World.call, World.start, hscan, h0, Slice.isNil]
  · simp [SelectList, World.call, World.start, hscan, Slice.isNil]

/-- Witness for C6, on a scan finding two rows, a failing scan and a scan
finding none. -/
theorem SelectList_forwards_witness :
    (SelectList (scripted Script.ok) "SELECT * FROM users" [] (World.start 0)).1.1 =
      Slice.mk ["ann", "bob"] ∧
    (SelectList (scripted Script.scanFails) "SELECT * FROM users" [] (World.start 0)).1.1 =
      Slice.mk [] ∧
    (SelectList (scripted Script.noRows) "SELECT * FROM users" [] (World.start 0)).1.1 =
      Slice.mk [] :=
  ⟨((SelectList_forwards (scripted Script.ok) "SELECT * FROM users" [] 0).2.2.1
      (Slice.mk ["ann", "bob"]) 1 rfl (by decide)).1,
   (SelectList_forwards (scripted Script.scanFails) "SELECT * FROM users" [] 0).2.2.2.1
      Slice.nil "connection refused" 1 rfl,
   (SelectList_forwards (scripted Script.noRows) "SELECT * FROM users" [] 0).2.2.2.2.1
      Slice.nil 1 rfl rfl⟩

/-- C2, what the code does: when the scan succeeds and leaves `r` in the row,
SelsectBy returns `r` together with the error "not found", not a nil error;
when the scan fails it returns the client's error. -/
theorem SelsectBy_always_errors [Inhabited R] (b : Client σ R ID E A T Res) (query : String)
    (args : List A) (s : σ) :
    (∀ r s1, b.rawScanRow query args default s = ((r, none), s1) →
      (SelsectBy b query args (World.start s)).1 = (r, some (GoError.new "not found"))) ∧
    (∀ r e s1, b.rawScanRow query args default s = ((r, some e), s1) →
      (SelsectBy b query args (World.start s)).1 = (r, some (GoError.client e))) ∧
    (SelsectBy b query args (World.start s)).1.2 ≠ none := by
  rcases hscan : b.rawScanRow query args default s with ⟨⟨r, _ | e⟩, s1⟩ <;>
    simp [SelsectBy, World.call, World.start, hscan]

/-- Witness for C2: the scan finds the row "ann" and SelsectBy returns it with
the error "not found". -/
theorem SelsectBy_always_errors_witness :
    (SelsectBy (scripted Script.ok) "SELECT * FROM users WHERE id = ?" [1] (World.start 0)).1 =
      ("ann", some (GoError.new "not found")) :=
  (SelsectBy_always_errors (scripted Script.ok) "SELECT * FROM users WHERE id = ?" [1] 0).1
    "ann" 1 rfl

end QueryTheorems

/-! ## Transactions -/

section TxTheorems

variable {σ R ID E A T Res : Type}

/-- C9: when Begin succeeds and the where-clause has length 0, UpdateTx returns
the error "there is no data to update"; Begin is the only client call made,
so no update statement is executed and the transaction is neither committed
nor rolled back. -/
theorem UpdateTx_empty_wheres (b : Client σ R ID E A T Res) (table : String)
    (value : List (String × A)) (wheres : String) (args : List A) (commit : List Bool)
    (s : σ) (tx : T) (s1 : σ)
    (hbegin : b.begin s = ((tx, none), s1)) (hlen : wheres.utf8ByteSize = 0) :
    (UpdateTx b table value wheres args commit (World.start s)).1 =
      (tx, some (GoError.new "there is no data to update")) ∧
    (UpdateTx b table value wheres args commit (World.start s)).2.calls = [Call.begin] ∧
    (∀ t tb v wh ar, Call.updateExec t tb v wh ar ∉
      (UpdateTx b table value wheres args commit (World.start s)).2.calls) ∧
    (∀ t, Call.commit t ∉ (UpdateTx b table value wheres args commit (World.start s)).2.calls ∧
      Call.rollback t ∉ (UpdateTx b table value wheres args commit (World.start s)).2.calls) := by
  simp [UpdateTx, World.call, World.start, hbegin, hlen]

/-- Witness for C9: an update with the where-clause "" and a commit argument. -/
theorem UpdateTx_empty_wheres_witness :
    (UpdateTx (scripted Script.ok) "users" [("age", 30)] "" [] [true] (World.start 0)).1 =
      (0, some (GoError.new "there is no data to update")) ∧
    (UpdateTx (scripted Script.ok) "users" [("age", 30)] "" [] [true] (World.start 0)).2.calls =
      [Call.begin] :=
  ⟨(UpdateTx_empty_wheres (scripted Script.ok) "users" [("age", 30)] "" [] [true] 0 0 1
      rfl rfl).1,
   (UpdateTx_empty_wheres (scripted Script.ok) "users" [("age", 30)] "" [] [true] 0 0 1
      rfl rfl).2.1⟩

/-- C10: when Begin and the delete succeed and RowsAffected reports a count at
most 0, DeleteTx calls Rollback, never Commit, and returns the result of
Rollback: a nil error when the rollback succeeds, and never "not found". -/
theorem DeleteTx_no_row (b : Client σ R ID E A T Res) (table : String) (wheres : String)
    (args : List A) (commit : List Bool) (s : σ) (tx : T) (rs : Res) (n : Int) (s1 s2 s3 : σ)
    (hbegin : b.begin s = ((tx, none), s1))
    (hexec : b.deleteExec tx table wheres args s1 = ((rs, none), s2))
    (hrows : b.rowsAffected rs s2 = ((n, none), s3)) (hn : n ≤ 0) :
    Call.rollback tx ∈ (DeleteTx b table wheres args commit (World.start s)).2.calls ∧
    (∀ t, Call.commit t ∉ (DeleteTx b table wheres args commit (World.start s)).2.calls) ∧
    (DeleteTx b table wheres args commit (World.start s)).1 =
      (tx, (b.rollback tx s3).1.map GoError.client) ∧
    ((b.rollback tx s3).1 = none →
      (DeleteTx b table wheres args commit (World.start s)).1.2 = none) ∧
    (DeleteTx b table wheres args commit (World.start s)).1.2 ≠
      some (GoError.new "not found") := by
  rcases hrb : b.rollback tx s3 with ⟨_ | e, s4⟩ <;>
    simp [DeleteTx, World.call, World.start, hbegin, hexec, hrows, hn, hrb]

/-- Witness for C10: a delete that matches no row, called with a commit
argument. -/
theorem DeleteTx_no_row_witness :
    Call.rollback 0 ∈
      (DeleteTx (scripted Script.noRows) "users" "id = ?" [5] [true] (World.start 0)).2.calls ∧
    (DeleteTx (scripted Script.noRows) "users" "id = ?" [5] [true] (World.start 0)).1 =
      (0, none) :=
  ⟨(DeleteTx_no_row (scripted Script.noRows) "users" "id = ?" [5] [true] 0 0 1 0 1 2 3
      rfl rfl rfl (by decide)).1,
   (DeleteTx_no_row (scripted Script.noRows) "users" "id = ?" [5] [true] 0 0 1 0 1 2 3
      rfl rfl rfl (by decide)).2.2.1⟩

/-- C8: for InsertTx with a non-nil id pointer, UpdateTx with a non-empty
where-clause and DeleteTx with at least one row affected, when Begin and the
statement succeed, Commit is called exactly when the list of commit arguments
is non-empty, whatever booleans it holds; with no commit argument the
transaction is neither committed nor rolled back. -/
theorem commit_iff_commit_args (b : Client σ R ID E A T Res) :
    (∀ (data : Ptr R) (id : Ptr ID) (s : σ) (tx : T) (s1 s2 : σ),
      b.begin s = ((tx, none), s1) → id.notNil = true →
      b.insertScan tx data id s1 = (none, s2) →
      CommitsIffAsked tx (fun commit => InsertTx b data id commit (World.start s))) ∧
    (∀ (table : String) (value : List (String × A)) (wheres : String) (args : List A)
      (s : σ) (tx : T) (rs : Res) (n : Int) (s1 s2 s3 : σ),
      b.begin s = ((tx, none), s1) → wheres.utf8ByteSize ≠ 0 →
      b.updateExec tx table value wheres args s1 = ((rs, none), s2) →
      b.rowsAffected rs s2 = ((n, none), s3) →
      CommitsIffAsked tx
        (fun commit => UpdateTx b table value wheres args commit (World.start s))) ∧
    (∀ (table : String) (wheres : String) (args : List A)
      (s : σ) (tx : T) (rs : Res) (n : Int) (s1 s2 s3 : σ),
      b.begin s = ((tx, none), s1) →
      b.deleteExec tx table wheres args s1 = ((rs, none), s2) →
      b.rowsAffected rs s2 = ((n, none), s3) → 1 ≤ n →
      CommitsIffAsked tx (fun commit => DeleteTx b table wheres args commit (World.start s))) := by
  refine ⟨?_, ?_, ?_⟩
  · intro data id s tx s1 s2 hbegin hid hins
    rcases hc : b.commit tx s2 with ⟨_ | e, s3⟩ <;>
    · refine ⟨?_, ?_, ?_, ?_⟩
      · intro commit
        cases commit <;> simp [InsertTx, World.call, World.start, hbegin, hid, hins, hc]
      · simp [InsertTx, World.call, World.start, hbegin, hid, hins, hc]
      · intro c1 c2 h1 h2
        cases c1 <;> cases c2 <;>
          simp_all [InsertTx, World.call, World.start]
      · intro t
        simp [InsertTx, World.call, World.start, hbegin, hid, hins, hc]
  · intro table value wheres args s tx rs n s1 s2 s3 hbegin hlen hexec hrows
    rcases hc : b.commit tx s3 with ⟨_ | e, s4⟩ <;>
    · refine ⟨?_, ?_, ?_, ?_⟩
      · intro commit
        cases commit <;> simp [UpdateTx, World.call, World.start, hbegin, hlen, hexec, hrows, hc]
      · simp [UpdateTx, World.call, World.start, hbegin, hlen, hexec, hrows, hc]
      · intro c1 c2 h1 h2
        cases c1 <;> cases c2 <;>
          simp_all [UpdateTx, World.call, World.start]
      · intro t
        simp [UpdateTx, World.call, World.start, hbegin, hlen, hexec, hrows, hc]
  · intro table wheres args s tx rs n s1 s2 s3 hbegin hexec hrows hn
    have hn0 : ¬ n ≤ 0 := by omega
    rcases hc : b.commit tx s3 with ⟨_ | e, s4⟩ <;>
    · refine ⟨?_, ?_, ?_, ?_⟩
      · intro commit
        cases commit <;>
          simp [DeleteTx, DeleteTx.finish, World.call, World.start, hbegin, hexec, hrows, hn0, hc]
      · simp [DeleteTx, DeleteTx.finish, World.call, World.start, hbegin, hexec, hrows, hn0, hc]
      · intro c1 c2 h1 h2
        cases c1 <;> cases c2 <;>
          simp_all [DeleteTx, DeleteTx.finish, World.call, World.start]
      · intro t
        simp [DeleteTx, DeleteTx.finish, World.call, World.start, hbegin, hexec, hrows, hn0, hc]

/-- Witness for C8: an insert, an update and a delete on a client whose calls
all succeed. -/
theorem commit_iff_commit_args_witness :
    CommitsIffAsked 0
      (fun commit => InsertTx (scripted Script.ok) (Ptr.addr 1) (Ptr.addr 2) commit
        (World.start 0)) ∧
    CommitsIffAsked 0
      (fun commit => UpdateTx (scripted Script.ok) "users" [("age", 30)] "id = ?" [5] commit
        (World.start 0)) ∧
    CommitsIffAsked 0
      (fun commit => DeleteTx (scripted Script.ok) "users" "id = ?" [5] commit
        (World.start 0)) :=
  ⟨(commit_iff_commit_args (scripted Script.ok)).1 (Ptr.addr 1) (Ptr.addr 2) 0 0 1 2
      rfl rfl rfl,
   (commit_iff_commit_args (scripted Script.ok)).2.1 "users" [("age", 30)] "id = ?" [5]
      0 0 1 1 1 2 3 rfl (by decide) rfl rfl,
   (commit_iff_commit_args (scripted Script.ok)).2.2 "users" "id = ?" [5]
      0 0 1 1 1 2 3 rfl rfl rfl (by decide)⟩

/-- C3, what the code does: when Begin succeeds and the delete statement
returns an error, DeleteTx returns a nil error, and when it was given a commit
argument it commits the transaction; it never rolls back. -/
theorem DeleteTx_swallows_exec_error (b : Client σ R ID E A T Res) (table : String)
    (wheres : String) (args : List A) (commit : List Bool) (s : σ) (tx : T) (rs : Res) (e : E)
    (s1 s2 : σ)
    (hbegin : b.begin s = ((tx, none), s1))
    (hexec : b.deleteExec tx table wheres args s1 = ((rs, some e), s2)) :
    (DeleteTx b table wheres args commit (World.start s)).1 = (tx, none) ∧
    (Call.commit tx ∈ (DeleteTx b table wheres args commit (World.start s)).2.calls ↔
      commit ≠ []) ∧
    (∀ t, Call.rollback t ∉ (DeleteTx b table wheres args commit (World.start s)).2.calls) := by
  rcases hc : b.commit tx s2 with ⟨_ | e2, s3⟩ <;> cases commit <;>
    simp [DeleteTx, DeleteTx.finish, World.call, World.start, hbegin, hexec, hc]

/-- Witness for C3: the delete statement fails with "constraint violated";
DeleteTx called with a commit argument returns a nil error after the calls
Begin, delete, Commit. -/
theorem DeleteTx_swallows_exec_error_witness :
    (DeleteTx (scripted Script.stmtFails) "users" "id = ?" [5] [true] (World.start 0)).1 =
      (0, none) ∧
    (DeleteTx (scripted Script.stmtFails) "users" "id = ?" [5] [true] (World.start 0)).2.calls =
      [Call.begin, Call.deleteExec 0 "users" "id = ?" [5], Call.commit 0] :=
  ⟨(DeleteTx_swallows_exec_error (scripted Script.stmtFails) "users" "id = ?" [5] [true]
      0 0 1 "constraint violated" 1 2 rfl rfl).1, rfl⟩

/-- C5, what the code does: for InsertTx, UpdateTx and DeleteTx called with at
least one commit argument, when the statement succeeds and Commit returns an
error, Commit has been called and the operation returns a nil error. -/
theorem commit_error_dropped (b : Client σ R ID E A T Res) (commit : List Bool)
    (hcommit : commit ≠ []) :
    (∀ (data : Ptr R) (id : Ptr ID) (s : σ) (tx : T) (e : E) (s1 s2 s3 : σ),
      b.begin s = ((tx, none), s1) → id.notNil = true →
      b.insertScan tx data id s1 = (none, s2) → b.commit tx s2 = (some e, s3) →
      Call.commit tx ∈ (InsertTx b data id commit (World.start s)).2.calls ∧
      (InsertTx b data id commit (World.start s)).1 = (tx, none)) ∧
    (∀ (table : String) (value : List (String × A)) (wheres : String) (args : List A)
      (s : σ) (tx : T) (rs : Res) (n : Int) (e : E) (s1 s2 s3 s4 : σ),
      b.begin s = ((tx, none), s1) → wheres.utf8ByteSize ≠ 0 →
      b.updateExec tx table value wheres args s1 = ((rs, none), s2) →
      b.rowsAffected rs s2 = ((n, none), s3) → b.commit tx s3 = (some e, s4) →
      Call.commit tx ∈ (UpdateTx b table value wheres args commit (World.start s)).2.calls ∧
      (UpdateTx b table value wheres args commit (World.start s)).1 = (tx, none)) ∧
    (∀ (table : String) (wheres : String) (args : List A)
      (s : σ) (tx : T) (rs : Res) (n : Int) (e : E) (s1 s2 s3 s4 : σ),
      b.begin s = ((tx, none), s1) →
      b.deleteExec tx table wheres args s1 = ((rs, none), s2) →
      b.rowsAffected rs s2 = ((n, none), s3) → 1 ≤ n → b.commit tx s3 = (some e, s4) →
      Call.commit tx ∈ (DeleteTx b table wheres args commit (World.start s)).2.calls ∧
      (DeleteTx b table wheres args commit (World.start s)).1 = (tx, none)) := by
  have hlen : commit.length > 0 := List.length_pos.mpr hcommit
  refine ⟨?_, ?_, ?_⟩
  · intro data id s tx e s1 s2 s3 hbegin hid hins hc
    simp [InsertTx, World.call, World.start, hbegin, hid, hins, hc, hlen]
  · intro table value wheres args s tx rs n e s1 s2 s3 s4 hbegin hw hexec hrows hc
    simp [UpdateTx, World.call, World.start, hbegin, hw, hexec, hrows, hc, hlen]
  · intro table wheres args s tx rs n e s1 s2 s3 s4 hbegin hexec hrows hn hc
    have hn0 : ¬ n ≤ 0 := by omega
    simp [DeleteTx, DeleteTx.finish, World.call, World.start, hbegin, hexec, hrows, hc, hlen, hn0]

/-- Witness for C5: Commit fails with "commit failed" and the three operations,
called with the commit argument true, return a nil error. -/
theorem commit_error_dropped_witness :
    (InsertTx (scripted Script.commitFails) (Ptr.addr 1) (Ptr.addr 2) [true]
      (World.start 0)).1 = (0, none) ∧
    (UpdateTx (scripted Script.commitFails) "users" [("age", 30)] "id = ?" [5] [true]
      (World.start 0)).1 = (0, none) ∧
    (DeleteTx (scripted Script.commitFails) "users" "id = ?" [5] [true]
      (World.start 0)).1 = (0, none) :=
  ⟨((commit_error_dropped (scripted Script.commitFails) [true] (by decide)).1
      (Ptr.addr 1) (Ptr.addr 2) 0 0 "commit failed" 1 2 3 rfl rfl rfl rfl).2,
   ((commit_error_dropped (scripted Script.commitFails) [true] (by decide)).2.1
      "users" [("age", 30)] "id = ?" [5] 0 0 1 1 "commit failed" 1 2 3 4
      rfl (by decide) rfl rfl rfl).2,
   ((commit_error_dropped (scripted Script.commitFails) [true] (by decide)).2.2
      "users" "id = ?" [5] 0 0 1 1 "commit failed" 1 2 3 4 rfl rfl rfl (by decide) rfl).2⟩

/-- C4, the claim fails: on a client whose Begin succeeds and whose statement
fails, InsertTx, UpdateTx and DeleteTx return without a Rollback on the
transaction they opened, and so do UpdateTx and DeleteTx when RowsAffected
fails. -/
theorem no_rollback_on_statement_error_example :
    ((scripted Script.stmtFails).begin 0 = ((0, none), 1) ∧
      (scripted Script.stmtFails).insertScan 0 (Ptr.addr 1) (Ptr.addr 2) 1 =
        (some "constraint violated", 2) ∧
      (InsertTx (scripted Script.stmtFails) (Ptr.addr 1) (Ptr.addr 2) [true]
        (World.start 0)).2.calls = [Call.begin, Call.insertScan 0 (Ptr.addr 1) (Ptr.addr 2)] ∧
      Call.rollback 0 ∉
        (InsertTx (scripted Script.stmtFails) (Ptr.addr 1) (Ptr.addr 2) [true]
          (World.start 0)).2.calls) ∧
    ((scripted Script.stmtFails).updateExec 0 "users" [("age", 30)] "id = ?" [5] 1 =
        ((1, some "constraint violated"), 2) ∧
      (UpdateTx (scripted Script.stmtFails) "users" [("age", 30)] "id = ?" [5] [true]
        (World.start 0)).2.calls =
          [Call.begin, Call.updateExec 0 "users" [("age", 30)] "id = ?" [5]] ∧
      Call.rollback 0 ∉
        (UpdateTx (scripted Script.stmtFails) "users" [("age", 30)] "id = ?" [5] [true]
          (World.start 0)).2.calls) ∧
    ((scripted Script.affectedFails).rowsAffected 1 2 = ((0, some "not supported"), 3) ∧
      Call.rollback 0 ∉
        (UpdateTx (scripted Script.affectedFails) "users" [("age", 30)] "id = ?" [5] [true]
          (World.start 0)).2.calls ∧
      (DeleteTx (scripted Script.affectedFails) "users" "id = ?" [5] [true]
        (World.start 0)).2.calls =
          [Call.begin, Call.deleteExec 0 "users" "id = ?" [5], Call.rowsAffected 1] ∧
      Call.rollback 0 ∉
        (DeleteTx (scripted Script.affectedFails) "users" "id = ?" [5] [true]
          (World.start 0)).2.calls) ∧
    ((scripted Script.stmtFails).deleteExec 0 "users" "id = ?" [5] 1 =
        ((1, some "constraint violated"), 2) ∧
      Call.rollback 0 ∉
        (DeleteTx (scripted Script.stmtFails) "users" "id = ?" [5] [true]
          (World.start 0)).2.calls) := by
  refine ⟨⟨rfl, rfl, rfl, ?_⟩, ⟨rfl, rfl, ?_⟩, ⟨rfl, ?_, rfl, ?_⟩, ⟨rfl, ?_⟩⟩ <;> decide

/-- C4 as amended: for InsertTx, UpdateTx and DeleteTx, when Begin succeeds and
the statement run inside the transaction (the insert scan, the update exec,
the delete exec, or the RowsAffected call after it) returns an error, the
operation returns the transaction it opened without calling Rollback. -/
theorem no_rollback_on_statement_error (b : Client σ R ID E A T Res) (commit : List Bool) :
    (∀ (data : Ptr R) (id : Ptr ID) (s : σ) (tx : T) (e : E) (s1 s2 : σ),
      b.begin s = ((tx, none), s1) → b.insertScan tx data id s1 = (some e, s2) →
      (InsertTx b data id commit (World.start s)).1.1 = tx ∧
      ∀ t, Call.rollback t ∉ (InsertTx b data id commit (World.start s)).2.calls) ∧
    (∀ (table : String) (value : List (String × A)) (wheres : String) (args : List A)
      (s : σ) (tx : T) (rs : Res) (e : E) (s1 s2 : σ),
      b.begin s = ((tx, none), s1) → wheres.utf8ByteSize ≠ 0 →
      b.updateExec tx table value wheres args s1 = ((rs, some e), s2) →
      (UpdateTx b table value wheres args commit (World.start s)).1.1 = tx ∧
      ∀ t, Call.rollback t ∉
        (UpdateTx b table value wheres args commit (World.start s)).2.calls) ∧
    (∀ (table : String) (value : List (String × A)) (wheres : String) (args : List A)
      (s : σ) (tx : T) (rs : Res) (n : Int) (e : E) (s1 s2 s3 : σ),
      b.begin s = ((tx, none), s1) → wheres.utf8ByteSize ≠ 0 →
      b.updateExec tx table value wheres args s1 = ((rs, none), s2) →
      b.rowsAffected rs s2 = ((n, some e), s3) →
      (UpdateTx b table value wheres args commit (World.start s)).1.1 = tx ∧
      ∀ t, Call.rollback t ∉
        (UpdateTx b table value wheres args commit (World.start s)).2.calls) ∧
    (∀ (table : String) (wheres : String) (args : List A)
      (s : σ) (tx : T) (rs : Res) (e : E) (s1 s2 : σ),
      b.begin s = ((tx, none), s1) →
      b.deleteExec tx table wheres args s1 = ((rs, some e), s2) →
      (DeleteTx b table wheres args commit (World.start s)).1.1 = tx ∧
      ∀ t, Call.rollback t ∉ (DeleteTx b table wheres args commit (World.start s)).2.calls) ∧
    (∀ (table : String) (wheres : String) (args : List A)
      (s : σ) (tx : T) (rs : Res) (n : Int) (e : E) (s1 s2 s3 : σ),
      b.begin s = ((tx, none), s1) →
      b.deleteExec tx table wheres args s1 = ((rs, none), s2) →
      b.rowsAffected rs s2 = ((n, some e), s3) →
      (DeleteTx b table wheres args commit (World.start s)).1.1 = tx ∧
      ∀ t, Call.rollback t ∉ (DeleteTx b table wheres args commit (World.start s)).2.calls) := by
  refine ⟨?_, ?_, ?_, ?_, ?_⟩
  · intro data id s tx e s1 s2 hbegin hins
    simp [InsertTx, World.call, World.start, hbegin, hins]
  · intro table value wheres args s tx rs e s1 s2 hbegin hw hexec
    simp [UpdateTx, World.call, World.start, hbegin, hw, hexec]
  · intro table value wheres args s tx rs n e s1 s2 s3 hbegin hw hexec hrows
    simp [UpdateTx, World.call, World.start, hbegin, hw, hexec, hrows]
  · intro table wheres args s tx rs e s1 s2 hbegin hexec
    rcases hc : b.commit tx s2 with ⟨_ | e2, s3⟩ <;> cases commit <;>
      simp [DeleteTx, DeleteTx.finish, World.call, World.start, hbegin, hexec, hc]
  · intro table wheres args s tx rs n e s1 s2 s3 hbegin hexec hrows
    simp [DeleteTx, DeleteTx.finish, World.call, World.start, hbegin, hexec, hrows]

/-- Witness for C4 as amended, on a client whose statement fails and on one
whose RowsAffected fails. -/
theorem no_rollback_on_statement_error_witness :
    (∀ t, Call.rollback t ∉
      (InsertTx (scripted Script.stmtFails) (Ptr.addr 1) (Ptr.addr 2) [true]
        (World.start 0)).2.calls) ∧
    (∀ t, Call.rollback t ∉
      (UpdateTx (scripted Script.stmtFails) "users" [("age", 30)] "id = ?" [5] [true]
        (World.start 0)).2.calls) ∧
    (∀ t, Call.rollback t ∉
      (UpdateTx (scripted Script.affectedFails) "users" [("age", 30)] "id = ?" [5] [true]
        (World.start 0)).2.calls) ∧
    (∀ t, Call.rollback t ∉
      (DeleteTx (scripted Script.stmtFails) "users" "id = ?" [5] [true]
        (World.start 0)).2.calls) ∧
    (∀ t, Call.rollback t ∉
      (DeleteTx (scripted Script.affectedFails) "users" "id = ?" [5] [true]
        (World.start 0)).2.calls) :=
  ⟨((no_rollback_on_statement_error (scripted Script.stmtFails) [true]).1
      (Ptr.addr 1) (Ptr.addr 2) 0 0 "constraint violated" 1 2 rfl rfl).2,
   ((no_rollback_on_statement_error (scripted Script.stmtFails) [true]).2.1
      "users" [("age", 30)] "id = ?" [5] 0 0 1 "constraint violated" 1 2
      rfl (by decide) rfl).2,
   ((no_rollback_on_statement_error (scripted Script.affectedFails) [true]).2.2.1
      "users" [("age", 30)] "id = ?" [5] 0 0 1 0 "not supported" 1 2 3
      rfl (by decide) rfl rfl).2,
   ((no_rollback_on_statement_error (scripted Script.stmtFails) [true]).2.2.2.1
      "users" "id = ?" [5] 0 0 1 "constraint violated" 1 2 rfl rfl).2,
   ((no_rollback_on_statement_error (scripted Script.affectedFails) [true]).2.2.2.2
      "users" "id = ?" [5] 0 0 1 0 "not supported" 1 2 3 rfl rfl rfl).2⟩

end TxTheorems

end Bunwrapper
